import Mathlib

/-!
Shallow embedding of the `stylus_nft` ERC-721 contract
(`src/erc721.rs` and `src/lib.rs`).

Addresses (20 bytes) and U256 words are modelled as `Nat`; the zero
address is `0`.  The Solidity storage mappings become total functions
with the EVM default value (`0` / `false`) for unset keys.  Arithmetic
on U256 follows the wrapping semantics of `alloy_primitives::U256`
(ruint) in the deployed release build: `+` and `-` reduce modulo
`2^256`.  A failed call reverts all storage writes of the operation;
`execCall` below models that host guarantee, so an operation is a
function `Erc721State → Except Erc721Error Erc721State` whose `error`
result carries no state change.

`msg::sender()` is passed explicitly as a `sender` argument.  The
foreign `onERC721Received` call of the safe-transfer protocol is an
external collaborator; it is modelled by an `Env` record giving the
code-presence probe (`has_code`) and each receiver reply.
-/

namespace StylusNft

/-- Modulus of the 256-bit EVM word. -/
def U256_MOD : Nat := 2 ^ 256

/-- Wrapping addition of two U256 words (ruint `wrapping_add`). -/
def u256add (a b : Nat) : Nat := (a + b) % U256_MOD

/-- Wrapping subtraction of two U256 words (ruint `wrapping_sub`). -/
def u256sub (a b : Nat) : Nat := (a % U256_MOD + (U256_MOD - b % U256_MOD)) % U256_MOD

/-- Events logged by `evm::log` in `src/erc721.rs` (`sol!` block). -/
inductive Event where
  | Transfer (frm toAddr token_id : Nat)
  | Approval (owner approved token_id : Nat)
  | ApprovalForAll (owner operator : Nat) (approved : Bool)
  deriving DecidableEq, Repr

/-- The `Erc721Error` enum of `src/erc721.rs`, with the per-variant
structured fields in source order. -/
inductive Erc721Error where
  | InvalidTokenId (token_id : Nat)
  | NotOwner (frm token_id real_owner : Nat)
  | NotApproved (owner spender token_id : Nat)
  | TransferToZero (token_id : Nat)
  | ReceiverRefused (receiver token_id returned : Nat)
  deriving DecidableEq, Repr

/-- The `sol_storage!` struct `Erc721` of `src/erc721.rs`, plus the
event log written through `evm::log`. -/
structure Erc721State where
  owners : Nat → Nat
  balances : Nat → Nat
  token_approvals : Nat → Nat
  operator_approvals : Nat → Nat → Bool
  total_supply : Nat
  events : List Event

/-- Fresh contract storage: every mapping at its EVM default. -/
def initialState : Erc721State :=
  { owners := fun _ => 0
    balances := fun _ => 0
    token_approvals := fun _ => 0
    operator_approvals := fun _ _ => false
    total_supply := 0
    events := [] }

/-- Point update of a `uint256 => (address|uint256)` storage mapping. -/
def setNat (m : Nat → Nat) (k v : Nat) : Nat → Nat :=
  fun q => if q = k then v else m q

/-- Point update of the nested `operator_approvals` mapping. -/
def setOpApproval (m : Nat → Nat → Bool) (owner operator : Nat) (v : Bool) :
    Nat → Nat → Bool :=
  fun o q => if o = owner ∧ q = operator then v else m o q

/-- Embeds `Erc721::owner_of`: the owner of `token_id`, failing with
`InvalidTokenId` when the stored owner is the zero address. -/
def owner_of (s : Erc721State) (token_id : Nat) : Except Erc721Error Nat :=
  let owner := s.owners token_id
  if owner = 0 then
    Except.error (Erc721Error.InvalidTokenId token_id)
  else
    Except.ok owner

/-- Embeds `Erc721::require_authorized_to_spend`: checks that `sender`
(`msg::sender()`) may move `token_id` out of `frm`, in source order:
existence, ownership of `frm`, sender-is-owner, operator approval,
single-token approval, else `NotApproved`. -/
def require_authorized_to_spend (s : Erc721State) (sender frm token_id : Nat) :
    Except Erc721Error Unit :=
  match owner_of s token_id with
  | Except.error e => Except.error e
  | Except.ok owner =>
    if frm ≠ owner then
      Except.error (Erc721Error.NotOwner frm token_id owner)
    else if sender = owner then
      Except.ok ()
    else if s.operator_approvals owner sender then
      Except.ok ()
    else if sender = s.token_approvals token_id then
      Except.ok ()
    else
      Except.error (Erc721Error.NotApproved owner sender token_id)

/-- Embeds `Erc721::transfer`: the unchecked transfer engine.  Reads the
current owner, requires it to equal `frm`, then writes the new owner,
adjusts both balances with wrapping U256 arithmetic (the `toAddr` balance
is read after the `frm` balance was written, as in the source), clears
the single-token approval and logs a `Transfer` event. -/
def transfer (s : Erc721State) (token_id frm toAddr : Nat) :
    Except Erc721Error Erc721State :=
  let previous_owner := s.owners token_id
  if previous_owner ≠ frm then
    Except.error (Erc721Error.NotOwner frm token_id previous_owner)
  else
    let owners1 := setNat s.owners token_id toAddr
    let balances1 := setNat s.balances frm (u256sub (s.balances frm) 1)
    let balances2 := setNat balances1 toAddr (u256add (balances1 toAddr) 1)
    Except.ok
      { s with
        owners := owners1
        balances := balances2
        token_approvals := setNat s.token_approvals token_id 0
        events := s.events ++ [Event.Transfer frm toAddr token_id] }

/-- Reply of the foreign `onERC721Received` call: either the call
itself errors, or it returns a 4-byte value (as a `u32`). -/
inductive ReceiverReply where
  | reverts
  | returns (code : Nat)
  deriving DecidableEq, Repr

/-- External collaborators of the safe-transfer protocol: the
code-presence probe `Address::has_code` and the receiver reply to
`on_erc_721_received(operator, from, token_id, data)`. -/
structure Env where
  has_code : Nat → Bool
  reply : Nat → Nat → Nat → Nat → List Nat → ReceiverReply

/-- The required acceptance code `ERC721_TOKEN_RECEIVER_ID`
(`onERC721Received` selector). -/
def ERC721_TOKEN_RECEIVER_ID : Nat := 0x150b7a02

/-- Embeds `Erc721::call_receiver`: when `toAddr` has code, invoke its
`onERC721Received` entry point; a call error becomes `ReceiverRefused`
with `returned = 0`, a wrong 4-byte reply becomes `ReceiverRefused`
with the actual reply.  A codeless `toAddr` skips the call. -/
def call_receiver (env : Env) (s : Erc721State)
    (sender token_id frm toAddr : Nat) (data : List Nat) :
    Except Erc721Error Erc721State :=
  if env.has_code toAddr then
    match env.reply toAddr sender frm token_id data with
    | ReceiverReply.reverts =>
      Except.error (Erc721Error.ReceiverRefused toAddr token_id 0)
    | ReceiverReply.returns received =>
      if received ≠ ERC721_TOKEN_RECEIVER_ID then
        Except.error (Erc721Error.ReceiverRefused toAddr token_id received)
      else
        Except.ok s
  else
    Except.ok s

/-- Embeds `Erc721::safe_transfer`: transfer, then the receiver check. -/
def safe_transfer (env : Env) (s : Erc721State)
    (sender token_id frm toAddr : Nat) (data : List Nat) :
    Except Erc721Error Erc721State :=
  match transfer s token_id frm toAddr with
  | Except.error e => Except.error e
  | Except.ok s1 => call_receiver env s1 sender token_id frm toAddr data

/-- Embeds `Erc721::mint`: the current total supply becomes the new token id,
total supply is incremented (wrapping), then the unchecked engine
transfers the token from the zero address to `toAddr`. -/
def mint (s : Erc721State) (toAddr : Nat) : Except Erc721Error Erc721State :=
  let new_token_id := s.total_supply
  let s1 := { s with total_supply := u256add new_token_id 1 }
  transfer s1 new_token_id 0 toAddr

/-- Embeds `Erc721::burn`: transfer `token_id` from `frm` to the zero address. -/
def burn (s : Erc721State) (frm token_id : Nat) : Except Erc721Error Erc721State :=
  transfer s token_id frm 0

/-- Embeds `Erc721::balance_of`: stored balance, no validation. -/
def balance_of (s : Erc721State) (owner : Nat) : Except Erc721Error Nat :=
  Except.ok (s.balances owner)

/-- Embeds `Erc721::transfer_from`: zero-destination check, then the
authorization check, then the unchecked engine. -/
def transfer_from (s : Erc721State) (sender frm toAddr token_id : Nat) :
    Except Erc721Error Erc721State :=
  if toAddr = 0 then
    Except.error (Erc721Error.TransferToZero token_id)
  else
    match require_authorized_to_spend s sender frm token_id with
    | Except.error e => Except.error e
    | Except.ok _ => transfer s token_id frm toAddr

/-- Embeds `Erc721::safe_transfer_from_with_data` (selector
`safeTransferFrom` with `data`): zero-destination check, authorization
check, then the safe-transfer protocol. -/
def safe_transfer_from_with_data (env : Env) (s : Erc721State)
    (sender frm toAddr token_id : Nat) (data : List Nat) :
    Except Erc721Error Erc721State :=
  if toAddr = 0 then
    Except.error (Erc721Error.TransferToZero token_id)
  else
    match require_authorized_to_spend s sender frm token_id with
    | Except.error e => Except.error e
    | Except.ok _ => safe_transfer env s sender token_id frm toAddr data

/-- Embeds `Erc721::safe_transfer_from` (selector `safeTransferFrom` without
`data`): delegates with empty data. -/
def safe_transfer_from (env : Env) (s : Erc721State)
    (sender frm toAddr token_id : Nat) : Except Erc721Error Erc721State :=
  safe_transfer_from_with_data env s sender frm toAddr token_id []

/-- Embeds `Erc721::approve`: resolve the owner, require the sender to be the
owner or an approved operator, set the single-token approval, log. -/
def approve (s : Erc721State) (sender approved token_id : Nat) :
    Except Erc721Error Erc721State :=
  match owner_of s token_id with
  | Except.error e => Except.error e
  | Except.ok owner =>
    if sender ≠ owner ∧ ¬ s.operator_approvals owner sender then
      Except.error (Erc721Error.NotApproved owner sender token_id)
    else
      Except.ok
        { s with
          token_approvals := setNat s.token_approvals token_id approved
          events := s.events ++ [Event.Approval owner approved token_id] }

/-- Embeds `Erc721::set_approval_for_all`: unconditionally set the operator entry of the sender and log. -/
def set_approval_for_all (s : Erc721State) (sender operator : Nat)
    (approved : Bool) : Except Erc721Error Erc721State :=
  Except.ok
    { s with
      operator_approvals := setOpApproval s.operator_approvals sender operator approved
      events := s.events ++ [Event.ApprovalForAll sender operator approved] }

/-- Embeds `Erc721::get_approved`: raw lookup, no existence validation. -/
def get_approved (s : Erc721State) (token_id : Nat) : Except Erc721Error Nat :=
  Except.ok (s.token_approvals token_id)

/-- Embeds `Erc721::supports_interface` on the big-endian `u32` value of the
4-byte interface code: `0xffffffff` is rejected first, then the three
known ids are matched. -/
def supports_interface (interface_id : Nat) : Bool :=
  if interface_id = 0xffffffff then
    false
  else
    interface_id = 0x01ffc9a7 ∨ interface_id = 0x80ac58cd ∨ interface_id = 0x5b5e139f

/-- Embeds `StylusNFT::mint` (`src/lib.rs`): mint to `msg::sender()`. -/
def stylus_mint (s : Erc721State) (sender : Nat) : Except Erc721Error Erc721State :=
  mint s sender

/-- Embeds `StylusNFT::mint_to` (`src/lib.rs`): mint to the given address. -/
def stylus_mint_to (s : Erc721State) (toAddr : Nat) : Except Erc721Error Erc721State :=
  mint s toAddr

/-- Embeds `StylusNFT::burn` (`src/lib.rs`): burn with `msg::sender()` as the
transfer source. -/
def stylus_burn (s : Erc721State) (sender token_id : Nat) :
    Except Erc721Error Erc721State :=
  burn s sender token_id

/-- Embeds `StylusNFT::total_supply` (`src/lib.rs`). -/
def stylus_total_supply (s : Erc721State) : Except Erc721Error Nat :=
  Except.ok s.total_supply

/-- Host revert semantics: an external call that returns an error
discards every storage write of the operation. -/
def execCall (op : Erc721State → Except Erc721Error Erc721State)
    (s : Erc721State) : Erc721State :=
  match op s with
  | Except.ok s1 => s1
  | Except.error _ => s

/-- The 4-byte word the safe-transfer protocol reports for a receiver
reply: the returned value, or `0` when the call itself errored. -/
def returnedWord : ReceiverReply → Nat
  | ReceiverReply.reverts => 0
  | ReceiverReply.returns c => c

/-! ## Helper lemmas -/

theorem setNat_same (m : Nat → Nat) (k v : Nat) : setNat m k v k = v := by
  simp [setNat]

theorem setNat_other (m : Nat → Nat) (k v q : Nat) (h : q ≠ k) :
    setNat m k v q = m q := by
  simp [setNat, h]

theorem u256sub_one (b : Nat) (h1 : 1 ≤ b) (h2 : b < U256_MOD) :
    u256sub b 1 = b - 1 := by
  unfold u256sub
  have hpos : 1 ≤ U256_MOD := by unfold U256_MOD; norm_num
  have hM : (1 : Nat) % U256_MOD = 1 := Nat.mod_eq_of_lt (by unfold U256_MOD; norm_num)
  rw [Nat.mod_eq_of_lt h2, hM]
  have he : b + (U256_MOD - 1) = (b - 1) + U256_MOD := by omega
  rw [he, Nat.add_mod_right]
  exact Nat.mod_eq_of_lt (by omega)

/-- The state a successful run of the transfer engine writes: new
owner, both balances adjusted with wrapping U256 arithmetic in source
order, single-token approval cleared, `Transfer` event logged. -/
def transferResult (s : Erc721State) (token_id frm toAddr : Nat) : Erc721State :=
  { s with
    owners := setNat s.owners token_id toAddr
    balances := setNat (setNat s.balances frm (u256sub (s.balances frm) 1))
      toAddr (u256add (setNat s.balances frm (u256sub (s.balances frm) 1) toAddr) 1)
    token_approvals := setNat s.token_approvals token_id 0
    events := s.events ++ [Event.Transfer frm toAddr token_id] }

/-- Successful-path equation for the transfer engine. -/
theorem transfer_eq_ok (s : Erc721State) (token_id frm toAddr : Nat)
    (h : s.owners token_id = frm) :
    transfer s token_id frm toAddr =
      Except.ok (transferResult s token_id frm toAddr) := by
  unfold transfer transferResult
  simp [h]

/-- Inversion for a successful transfer: the owner check passed and
the result state is the record the engine writes. -/
theorem transfer_ok_inv (s s1 : Erc721State) (token_id frm toAddr : Nat)
    (h : transfer s token_id frm toAddr = Except.ok s1) :
    s.owners token_id = frm ∧
    s1 = transferResult s token_id frm toAddr := by
  by_cases hc : s.owners token_id = frm
  · rw [transfer_eq_ok s token_id frm toAddr hc] at h
    exact ⟨hc, ((Except.ok.injEq _ _).mp h).symm⟩
  · unfold transfer at h
    simp [hc] at h

/-- A successful authorization check pins `frm` to the real owner,
which is nonzero. -/
theorem require_authorized_ok_owner (s : Erc721State) (sender frm token_id : Nat)
    (h : require_authorized_to_spend s sender frm token_id = Except.ok ()) :
    s.owners token_id = frm ∧ frm ≠ 0 := by
  unfold require_authorized_to_spend owner_of at h
  by_cases h0 : s.owners token_id = 0
  · simp [h0] at h
  · by_cases hf : frm = s.owners token_id
    · exact ⟨hf.symm, fun hz => h0 (hf.symm.trans hz)⟩
    · simp [h0, hf] at h

/-! ## Claim theorems -/

/-- C9: `supportsInterface` answers `true` exactly for the core ERC-721
interface id `0x80ac58cd`, the metadata extension id `0x5b5e139f` and
the ERC-165 id `0x01ffc9a7` itself, and answers `false` for the
all-ones code `0xffffffff` and every other code. -/
theorem C9_supports_interface_characterization (c : Nat) :
    (supports_interface c = true ↔
      c = 0x80ac58cd ∨ c = 0x5b5e139f ∨ c = 0x01ffc9a7) ∧
    supports_interface 0xffffffff = false := by
  refine ⟨?_, by decide⟩
  unfold supports_interface
  by_cases hff : c = 0xffffffff
  · subst hff; decide
  · simp only [hff, if_false, decide_eq_true_eq]
    tauto

/-- C4: `transferFrom` and both `safeTransferFrom` selectors with the
zero address as destination fail with `TransferToZero` carrying the
token id, and the reverting call leaves the whole ledger state
unchanged; the zero-address check fires before any ledger mutation. -/
theorem C4_transfer_to_zero_rejected (env : Env) (s : Erc721State)
    (sender frm token_id : Nat) (data : List Nat) :
    transfer_from s sender frm 0 token_id =
      Except.error (Erc721Error.TransferToZero token_id) ∧
    safe_transfer_from_with_data env s sender frm 0 token_id data =
      Except.error (Erc721Error.TransferToZero token_id) ∧
    safe_transfer_from env s sender frm 0 token_id =
      Except.error (Erc721Error.TransferToZero token_id) ∧
    execCall (fun s1 => transfer_from s1 sender frm 0 token_id) s = s ∧
    execCall (fun s1 => safe_transfer_from_with_data env s1 sender frm 0 token_id data) s = s ∧
    execCall (fun s1 => safe_transfer_from env s1 sender frm 0 token_id) s = s :=
  ⟨rfl, rfl, rfl, rfl, rfl, rfl⟩

/-- C5: the authorization check fails `InvalidTokenId` on a token with
no owner; otherwise fails `NotOwner (frm, token_id, owner)` when `frm`
differs from the real owner (the ownership check precedes every
approval check, so this holds whatever the approvals are); otherwise
it succeeds exactly when the caller is the owner, holds operator
approval from the owner, or is the single approval of the token, and fails
`NotApproved (owner, caller, token_id)` otherwise.  (The source checks
operator approval before single-token approval; both orders reach
`Ok`, so only this success-iff is observable.) -/
theorem C5_authorization_characterization (s : Erc721State)
    (sender frm token_id : Nat) :
    (s.owners token_id = 0 →
      require_authorized_to_spend s sender frm token_id =
        Except.error (Erc721Error.InvalidTokenId token_id)) ∧
    (s.owners token_id ≠ 0 → frm ≠ s.owners token_id →
      require_authorized_to_spend s sender frm token_id =
        Except.error (Erc721Error.NotOwner frm token_id (s.owners token_id))) ∧
    (s.owners token_id = frm → frm ≠ 0 →
      (require_authorized_to_spend s sender frm token_id = Except.ok () ↔
        sender = frm ∨ s.operator_approvals frm sender = true ∨
          s.token_approvals token_id = sender) ∧
      (¬ (sender = frm ∨ s.operator_approvals frm sender = true ∨
          s.token_approvals token_id = sender) →
        require_authorized_to_spend s sender frm token_id =
          Except.error (Erc721Error.NotApproved frm sender token_id))) := by
  unfold require_authorized_to_spend owner_of
  refine ⟨?_, ?_, ?_⟩
  · intro h; simp [h]
  · intro h hne; simp [h, hne]
  · intro hown hfrm
    rw [hown]
    by_cases hs : sender = frm
    · simp [hfrm, hs]
    · by_cases hop : s.operator_approvals frm sender
      · simp [hfrm, hs, hop]
      · by_cases hap : sender = s.token_approvals token_id
        · simp [hfrm, hs, hop, hap]
        · simp [hfrm, hs, hop, hap]
          exact fun h => hap h.symm

/-- C5 witness: on a concrete state where address `1` owns token `0`
and has granted operator approval to `2`, the check succeeds for the
operator caller. -/
theorem C5_witness :
    require_authorized_to_spend
      { initialState with
        owners := setNat (fun _ => 0) 0 1
        balances := setNat (fun _ => 0) 1 1
        operator_approvals := setOpApproval (fun _ _ => false) 1 2 true
        total_supply := 1 } 2 1 0 = Except.ok () := by
  have h := (C5_authorization_characterization
    { initialState with
      owners := setNat (fun _ => 0) 0 1
      balances := setNat (fun _ => 0) 1 1
      operator_approvals := setOpApproval (fun _ _ => false) 1 2 true
      total_supply := 1 } 2 1 0).2.2 (by decide) (by decide)
  exact h.1.mpr (Or.inr (Or.inl (by decide)))

/-- C2: a mint targeting the zero address never leaves the new token
alive with the zero address as owner: whenever `mint` (and therefore
the `mintTo` entrypoint) returns successfully for target `0`, the
freshly assigned token id (the old total supply) still has the zero
owner, so `ownerOf` on it fails `InvalidTokenId`. -/
theorem C2_mint_to_zero_not_alive (s s1 : Erc721State)
    (h : mint s 0 = Except.ok s1) :
    s1.owners s.total_supply = 0 ∧
    owner_of s1 s.total_supply =
      Except.error (Erc721Error.InvalidTokenId s.total_supply) ∧
    stylus_mint_to s 0 = Except.ok s1 := by
  unfold mint at h
  obtain ⟨-, hs1⟩ := transfer_ok_inv _ _ _ _ _ h
  subst hs1
  refine ⟨?_, ?_, h⟩
  · unfold transferResult
    exact setNat_same _ _ _
  · unfold owner_of transferResult
    simp [setNat_same]

/-- C2 witness: minting to the zero address from the fresh state
succeeds, yet `ownerOf` of the new token id `0` fails. -/
theorem C2_witness :
    owner_of (execCall (fun s => mint s 0) initialState) 0 =
      Except.error (Erc721Error.InvalidTokenId 0) := by
  have h : mint initialState 0 =
      Except.ok (execCall (fun s => mint s 0) initialState) := rfl
  exact (C2_mint_to_zero_not_alive initialState _ h).2.1

/-- The receiver check never changes the ledger state: when it
returns `ok`, it returns the state it was given. -/
theorem call_receiver_ok_state (env : Env) (s s1 : Erc721State)
    (sender token_id frm toAddr : Nat) (data : List Nat)
    (h : call_receiver env s sender token_id frm toAddr data = Except.ok s1) :
    s1 = s := by
  unfold call_receiver at h
  by_cases hc : env.has_code toAddr
  · simp only [hc, if_true] at h
    cases hr : env.reply toAddr sender frm token_id data with
    | reverts => rw [hr] at h; simp at h
    | returns c =>
      rw [hr] at h
      by_cases hcc : c = ERC721_TOKEN_RECEIVER_ID
      · simp [hcc] at h; exact h.symm
      · simp [hcc] at h
  · simp [hc] at h; exact h.symm

/-- C6: every successful run of the transfer engine — whether reached
through `transfer` itself, `transferFrom`, `safeTransferFrom`, `mint`
or `burn` — leaves the single-token approval of the moved token equal
to the zero address, whatever value it held before. -/
theorem C6_transfer_clears_single_approval (env : Env) (s : Erc721State)
    (sender frm toAddr token_id : Nat) (data : List Nat) :
    (∀ s1, transfer s token_id frm toAddr = Except.ok s1 →
      s1.token_approvals token_id = 0) ∧
    (∀ s1, transfer_from s sender frm toAddr token_id = Except.ok s1 →
      s1.token_approvals token_id = 0) ∧
    (∀ s1, safe_transfer_from_with_data env s sender frm toAddr token_id data =
        Except.ok s1 → s1.token_approvals token_id = 0) ∧
    (∀ s1, mint s toAddr = Except.ok s1 →
      s1.token_approvals s.total_supply = 0) ∧
    (∀ s1, burn s frm token_id = Except.ok s1 →
      s1.token_approvals token_id = 0) := by
  have core : ∀ (s0 s1 : Erc721State) (tid f t : Nat),
      transfer s0 tid f t = Except.ok s1 → s1.token_approvals tid = 0 := by
    intro s0 s1 tid f t h
    obtain ⟨-, hs1⟩ := transfer_ok_inv _ _ _ _ _ h
    subst hs1
    unfold transferResult
    exact setNat_same _ _ _
  refine ⟨fun s1 h => core _ _ _ _ _ h, ?_, ?_, ?_, fun s1 h => core _ _ _ _ _ h⟩
  · intro s1 h
    unfold transfer_from at h
    by_cases h0 : toAddr = 0
    · simp [h0] at h
    · rw [if_neg h0] at h
      cases hr : require_authorized_to_spend s sender frm token_id with
      | error e => rw [hr] at h; simp at h
      | ok u => rw [hr] at h; exact core _ _ _ _ _ h
  · intro s1 h
    unfold safe_transfer_from_with_data at h
    by_cases h0 : toAddr = 0
    · simp [h0] at h
    · rw [if_neg h0] at h
      cases hr : require_authorized_to_spend s sender frm token_id with
      | error e => rw [hr] at h; simp at h
      | ok u =>
        rw [hr] at h
        unfold safe_transfer at h
        cases ht : transfer s token_id frm toAddr with
        | error e => rw [ht] at h; simp at h
        | ok s2 =>
          rw [ht] at h
          have := call_receiver_ok_state env s2 s1 sender token_id frm toAddr data h
          subst this
          exact core _ _ _ _ _ ht
  · intro s1 h
    unfold mint at h
    exact core _ _ _ _ _ h

/-- C6 witness: on a state where the approval of token `0` is set to
address `5`, a successful transfer from `1` to `2` clears it. -/
theorem C6_witness :
    ({ initialState with
       owners := setNat (fun _ => 0) 0 1
       balances := setNat (fun _ => 0) 1 1
       token_approvals := setNat (fun _ => 0) 0 5
       total_supply := 1 } : Erc721State).token_approvals 0 = 5 ∧
    (execCall (fun s => transfer s 0 1 2)
      { initialState with
        owners := setNat (fun _ => 0) 0 1
        balances := setNat (fun _ => 0) 1 1
        token_approvals := setNat (fun _ => 0) 0 5
        total_supply := 1 }).token_approvals 0 = 0 := by
  refine ⟨by decide, ?_⟩
  exact (C6_transfer_clears_single_approval ⟨fun _ => false, fun _ _ _ _ _ => ReceiverReply.reverts⟩
    { initialState with
      owners := setNat (fun _ => 0) 0 1
      balances := setNat (fun _ => 0) 1 1
      token_approvals := setNat (fun _ => 0) 0 5
      total_supply := 1 } 1 1 2 0 []).1 _ rfl

/-- C10: the public burn entrypoint passes `msg::sender()` as the
transfer source, so whenever the caller is not the stored owner of the
token — the quantified state covers any operator and single-token
approvals the caller may hold — it fails `NotOwner` and the reverted
call leaves the state unchanged. -/
theorem C10_burn_restricted_to_owner (s : Erc721State) (sender token_id : Nat)
    (h : s.owners token_id ≠ sender) :
    stylus_burn s sender token_id =
      Except.error (Erc721Error.NotOwner sender token_id (s.owners token_id)) ∧
    execCall (fun s1 => stylus_burn s1 sender token_id) s = s := by
  have he : stylus_burn s sender token_id =
      Except.error (Erc721Error.NotOwner sender token_id (s.owners token_id)) := by
    unfold stylus_burn burn transfer
    simp [h]
  exact ⟨he, by unfold execCall; simp only [he]⟩

/-- C10 witness: address `2` holds both operator approval from owner
`1` and the single-token approval of token `0`, yet its burn attempt
fails `NotOwner`. -/
theorem C10_witness :
    ({ initialState with
       owners := setNat (fun _ => 0) 0 1
       balances := setNat (fun _ => 0) 1 1
       token_approvals := setNat (fun _ => 0) 0 2
       operator_approvals := setOpApproval (fun _ _ => false) 1 2 true
       total_supply := 1 } : Erc721State).operator_approvals 1 2 = true ∧
    ({ initialState with
       owners := setNat (fun _ => 0) 0 1
       balances := setNat (fun _ => 0) 1 1
       token_approvals := setNat (fun _ => 0) 0 2
       operator_approvals := setOpApproval (fun _ _ => false) 1 2 true
       total_supply := 1 } : Erc721State).token_approvals 0 = 2 ∧
    stylus_burn
      { initialState with
        owners := setNat (fun _ => 0) 0 1
        balances := setNat (fun _ => 0) 1 1
        token_approvals := setNat (fun _ => 0) 0 2
        operator_approvals := setOpApproval (fun _ _ => false) 1 2 true
        total_supply := 1 } 2 0 =
      Except.error (Erc721Error.NotOwner 2 0 1) := by
  refine ⟨by decide, by decide, ?_⟩
  exact (C10_burn_restricted_to_owner
    { initialState with
      owners := setNat (fun _ => 0) 0 1
      balances := setNat (fun _ => 0) 1 1
      token_approvals := setNat (fun _ => 0) 0 2
      operator_approvals := setOpApproval (fun _ _ => false) 1 2 true
      total_supply := 1 } 2 0 (by decide)).1

/-- C8: when `frm` really owns token `token_id` (stored owner `frm`,
nonzero, with the ledger balance of `frm` a positive in-range U256),
`burn(frm, token_id)` succeeds, after it `ownerOf` fails
`InvalidTokenId`, the balance of `frm` drops by one and the total
supply is untouched; and `burn` fails `NotOwner` for any claimed
source that is not the stored owner. -/
theorem C8_burn_effects (s : Erc721State) (frm token_id : Nat)
    (hown : s.owners token_id = frm) (hfrm : frm ≠ 0)
    (hb1 : 1 ≤ s.balances frm) (hb2 : s.balances frm < U256_MOD) :
    (burn s frm token_id).isOk = true ∧
    owner_of (execCall (fun s1 => burn s1 frm token_id) s) token_id =
      Except.error (Erc721Error.InvalidTokenId token_id) ∧
    (execCall (fun s1 => burn s1 frm token_id) s).balances frm =
      s.balances frm - 1 ∧
    (execCall (fun s1 => burn s1 frm token_id) s).total_supply =
      s.total_supply ∧
    (∀ a, s.owners token_id ≠ a →
      burn s a token_id =
        Except.error (Erc721Error.NotOwner a token_id (s.owners token_id))) := by
  have hok : burn s frm token_id =
      Except.ok (transferResult s token_id frm 0) := by
    unfold burn
    exact transfer_eq_ok s token_id frm 0 hown
  have hex : execCall (fun s1 => burn s1 frm token_id) s =
      transferResult s token_id frm 0 := by
    unfold execCall
    simp only [hok]
  refine ⟨by rw [hok]; rfl, ?_, ?_, ?_, ?_⟩
  · rw [hex]
    unfold owner_of transferResult
    simp [setNat_same]
  · rw [hex]
    unfold transferResult
    show setNat (setNat s.balances frm (u256sub (s.balances frm) 1)) 0
      (u256add (setNat s.balances frm (u256sub (s.balances frm) 1) 0) 1) frm =
      s.balances frm - 1
    rw [setNat_other _ _ _ frm hfrm, setNat_same]
    exact u256sub_one _ hb1 hb2
  · rw [hex]; rfl
  · intro a ha
    unfold burn transfer
    simp [ha]

/-- C8 witness: on the state where `1` owns the single token `0` with
balance `1` and total supply `1`, the burn succeeds with the claimed
effects, and a burn claiming source `2` fails `NotOwner`. -/
theorem C8_witness :
    (burn { initialState with
            owners := setNat (fun _ => 0) 0 1
            balances := setNat (fun _ => 0) 1 1
            total_supply := 1 } 1 0).isOk = true ∧
    owner_of (execCall (fun s1 => burn s1 1 0)
      { initialState with
        owners := setNat (fun _ => 0) 0 1
        balances := setNat (fun _ => 0) 1 1
        total_supply := 1 }) 0 =
      Except.error (Erc721Error.InvalidTokenId 0) ∧
    (execCall (fun s1 => burn s1 1 0)
      { initialState with
        owners := setNat (fun _ => 0) 0 1
        balances := setNat (fun _ => 0) 1 1
        total_supply := 1 }).balances 1 = 0 ∧
    (execCall (fun s1 => burn s1 1 0)
      { initialState with
        owners := setNat (fun _ => 0) 0 1
        balances := setNat (fun _ => 0) 1 1
        total_supply := 1 }).total_supply = 1 ∧
    burn { initialState with
           owners := setNat (fun _ => 0) 0 1
           balances := setNat (fun _ => 0) 1 1
           total_supply := 1 } 2 0 =
      Except.error (Erc721Error.NotOwner 2 0 1) := by
  have h := C8_burn_effects
    { initialState with
      owners := setNat (fun _ => 0) 0 1
      balances := setNat (fun _ => 0) 1 1
      total_supply := 1 } 1 0 (by decide) (by decide) (by decide) (by decide)
  exact ⟨h.1, h.2.1, h.2.2.1, h.2.2.2.1, h.2.2.2.2 2 (by decide)⟩

/-- C7 counterexample: from the fresh state, `mint` targeting the zero
address *succeeds*, yet the balance of the target does not increase
(it stays `0`) and `ownerOf` of the new token id `0` fails instead of
returning the target — so the claim is false at `a = 0`. -/
theorem C7_counterexample_mint_zero :
    (mint initialState 0).isOk = true ∧
    initialState.balances 0 = 0 ∧
    (execCall (fun s => mint s 0) initialState).balances 0 = 0 ∧
    owner_of (execCall (fun s => mint s 0) initialState) 0 =
      Except.error (Erc721Error.InvalidTokenId 0) :=
  ⟨rfl, rfl, by decide, rfl⟩

/-- C7 (amended): for a nonzero minting target `a`, a successful
`mint(a)` uses the old total supply as the new token id, and leaves
`ownerOf(newId) = a`, the balance of `a` incremented by one and the
total supply incremented by one (both as wrapping U256 increments),
with a `Transfer (zero, a, newId)` event appended to the log. -/
theorem C7_mint_effects (s s1 : Erc721State) (a : Nat) (ha : a ≠ 0)
    (h : mint s a = Except.ok s1) :
    owner_of s1 s.total_supply = Except.ok a ∧
    s1.balances a = u256add (s.balances a) 1 ∧
    s1.total_supply = u256add s.total_supply 1 ∧
    s1.events = s.events ++ [Event.Transfer 0 a s.total_supply] := by
  unfold mint at h
  obtain ⟨-, hs1⟩ := transfer_ok_inv _ _ _ _ _ h
  subst hs1
  refine ⟨?_, ?_, rfl, rfl⟩
  · unfold owner_of transferResult
    simp [setNat_same, ha]
  · unfold transferResult
    show setNat (setNat s.balances 0 (u256sub (s.balances 0) 1)) a
      (u256add (setNat s.balances 0 (u256sub (s.balances 0) 1) a) 1) a =
      u256add (s.balances a) 1
    rw [setNat_same, setNat_other _ _ _ a ha]

/-- C7 witness: minting to address `1` from the fresh state gives
`ownerOf(0) = 1`, balance `1`, total supply `1` and the event
`Transfer (0, 1, 0)`. -/
theorem C7_witness :
    owner_of (execCall (fun s => mint s 1) initialState) 0 = Except.ok 1 ∧
    (execCall (fun s => mint s 1) initialState).balances 1 = 1 ∧
    (execCall (fun s => mint s 1) initialState).total_supply = 1 ∧
    (execCall (fun s => mint s 1) initialState).events =
      [Event.Transfer 0 1 0] := by
  have h : mint initialState 1 =
      Except.ok (execCall (fun s => mint s 1) initialState) := rfl
  have hc := C7_mint_effects initialState _ 1 (by decide) h
  exact ⟨hc.1, hc.2.1, hc.2.2.1, hc.2.2.2⟩

/-- C3: when the destination is nonzero, the caller is authorized and
the destination is contract-capable but does not answer the exact
acceptance code (either the call errors — reported word `0` — or it
returns a wrong 4-byte value, which is reported verbatim),
`safeTransferFrom` fails `ReceiverRefused (toAddr, token_id, word)`
and the reverted call discards the already-performed ownership write:
`ownerOf(token_id)` still reports the original owner `frm`. -/
theorem C3_receiver_refusal_reverts (env : Env) (s : Erc721State)
    (sender frm toAddr token_id : Nat) (data : List Nat)
    (hauth : require_authorized_to_spend s sender frm token_id = Except.ok ())
    (hto : toAddr ≠ 0)
    (hcode : env.has_code toAddr = true)
    (hfail : env.reply toAddr sender frm token_id data ≠
      ReceiverReply.returns ERC721_TOKEN_RECEIVER_ID) :
    safe_transfer_from_with_data env s sender frm toAddr token_id data =
      Except.error (Erc721Error.ReceiverRefused toAddr token_id
        (returnedWord (env.reply toAddr sender frm token_id data))) ∧
    owner_of (execCall (fun s1 =>
      safe_transfer_from_with_data env s1 sender frm toAddr token_id data) s)
      token_id = Except.ok frm := by
  obtain ⟨hown, hfz⟩ := require_authorized_ok_owner s sender frm token_id hauth
  have hcr : ∀ s2 : Erc721State,
      call_receiver env s2 sender token_id frm toAddr data =
        Except.error (Erc721Error.ReceiverRefused toAddr token_id
          (returnedWord (env.reply toAddr sender frm token_id data))) := by
    intro s2
    unfold call_receiver
    simp only [hcode, if_true]
    cases hr : env.reply toAddr sender frm token_id data with
    | reverts => simp [returnedWord]
    | returns c =>
      have hc : c ≠ ERC721_TOKEN_RECEIVER_ID := fun he => hfail (by rw [hr, he])
      simp [hc, returnedWord]
  have hst : safe_transfer_from_with_data env s sender frm toAddr token_id data =
      Except.error (Erc721Error.ReceiverRefused toAddr token_id
        (returnedWord (env.reply toAddr sender frm token_id data))) := by
    unfold safe_transfer_from_with_data
    rw [if_neg hto]
    simp only [hauth]
    unfold safe_transfer
    rw [transfer_eq_ok s token_id frm toAddr hown]
    exact hcr _
  refine ⟨hst, ?_⟩
  have hex : execCall (fun s1 =>
      safe_transfer_from_with_data env s1 sender frm toAddr token_id data) s = s := by
    unfold execCall
    simp only [hst]
  rw [hex]
  unfold owner_of
  simp [hown, hfz]

/-- C3 witness: token `0` owned by `1`, safe transfer by the owner to
the contract-capable address `7` whose receiver replies with the wrong
word `0xdeadbeef`: the call fails `ReceiverRefused (7, 0, 0xdeadbeef)`
and `ownerOf(0)` still reports `1`. -/
theorem C3_witness :
    safe_transfer_from_with_data
      ⟨fun a => a == 7, fun _ _ _ _ _ => ReceiverReply.returns 0xdeadbeef⟩
      { initialState with
        owners := setNat (fun _ => 0) 0 1
        balances := setNat (fun _ => 0) 1 1
        total_supply := 1 } 1 1 7 0 [] =
      Except.error (Erc721Error.ReceiverRefused 7 0 0xdeadbeef) ∧
    owner_of (execCall (fun s1 => safe_transfer_from_with_data
      ⟨fun a => a == 7, fun _ _ _ _ _ => ReceiverReply.returns 0xdeadbeef⟩
      s1 1 1 7 0 [])
      { initialState with
        owners := setNat (fun _ => 0) 0 1
        balances := setNat (fun _ => 0) 1 1
        total_supply := 1 }) 0 = Except.ok 1 := by
  have h := C3_receiver_refusal_reverts
    ⟨fun a => a == 7, fun _ _ _ _ _ => ReceiverReply.returns 0xdeadbeef⟩
    { initialState with
      owners := setNat (fun _ => 0) 0 1
      balances := setNat (fun _ => 0) 1 1
      total_supply := 1 } 1 1 7 0 []
    rfl (by decide) (by decide) (by decide)
  exact ⟨h.1, h.2⟩

/-- C1: the very first mint (to address `1`, from the fresh state)
already breaks the balance invariant for the zero address: the U256
decrement of `balance[from]` in `Erc721::transfer` runs with `from`
equal to the zero address, whose balance is `0`, so it wraps to
`2^256 - 1` — a positive stored balance for the zero address even
though every transfer out of the zero address is a mint and the zero
address owns no token. -/
theorem C1_zero_balance_underflow :
    (mint initialState 1).isOk = true ∧
    (execCall (fun s => mint s 1) initialState).owners 0 = 1 ∧
    (execCall (fun s => mint s 1) initialState).balances 0 = U256_MOD - 1 ∧
    0 < (execCall (fun s => mint s 1) initialState).balances 0 :=
  ⟨rfl, by decide, by decide, by decide⟩

end StylusNft
